import Mathlib

/-!
Shallow embedding of the streaming process supervisor of `app.py`
(classes `StreamingDatabase`, `StreamingProcess`, `AdvancedStreamer`).

Python strings are modelled as `String`, Python `int` as `Int`, Python
`float` as `Rat` (every numeric literal the parser meets is a decimal
numeral, so rationals model the comparisons the claims make exactly),
Python lists/queues as `List`, and the `datetime` timestamps that only
decorate log lines as an abstract `String` parameter.  All string
utilities are re-implemented by structural recursion on `List Char` so
that every definition evaluates by `decide`/`rfl`.
-/

/-- `chStarts pat l` : `l` starts with the character list `pat`
(Python `str.startswith` on the underlying characters). -/
def chStarts : List Char → List Char → Bool
  | [], _ => true
  | _ :: _, [] => false
  | p :: ps, c :: cs => p = c && chStarts ps cs

/-- `chContains pat l` : `pat` occurs contiguously inside `l`
(Python `in` on strings). -/
def chContains (pat : List Char) : List Char → Bool
  | [] => chStarts pat []
  | c :: cs => chStarts pat (c :: cs) || chContains pat cs

/-- Python `needle in hay` for strings. -/
def pyIn (needle hay : String) : Bool :=
  chContains needle.toList hay.toList

/-- Python `s.startswith(pat)`. -/
def pyStartsWith (s pat : String) : Bool :=
  chStarts pat.toList s.toList

/-- ASCII lower-casing of one character (what Python `str.lower` does on
the ASCII text the supervisor handles). -/
def asciiLower (c : Char) : Char :=
  if 'A' ≤ c ∧ c ≤ 'Z' then Char.ofNat (c.toNat + 32) else c

/-- Python `s.lower()`. -/
def pyLower (s : String) : String :=
  (s.toList.map asciiLower).asString

/-- Python `s.strip()`: drop leading and trailing whitespace. -/
def pyStrip (s : String) : String :=
  (((s.toList.dropWhile Char.isWhitespace).reverse.dropWhile
      Char.isWhitespace).reverse).asString

/-- Splitting on runs of whitespace, accumulator-style
(Python `s.split()` with no argument). -/
def splitWsAux : List Char → List Char → List (List Char)
  | [], acc => if acc = [] then [] else [acc.reverse]
  | c :: cs, acc =>
    if c.isWhitespace then
      (if acc = [] then splitWsAux cs [] else acc.reverse :: splitWsAux cs [])
    else splitWsAux cs (c :: acc)

/-- Python `s.split()`: whitespace-delimited tokens, no empty tokens. -/
def pySplitWs (s : String) : List String :=
  (splitWsAux s.toList []).map List.asString

/-- Splitting on a single separator character, keeping empty segments
(Python `s.split("=")`). -/
def splitChAux (sep : Char) : List Char → List Char → List (List Char)
  | [], acc => [acc.reverse]
  | c :: cs, acc =>
    if c = sep then acc.reverse :: splitChAux sep cs []
    else splitChAux sep cs (c :: acc)

/-- Python `part.split("=")[1]`: the segment between the first and the
second `=` (every token this is applied to starts with `key=`, so the
index is always in range). -/
def eqField1 (part : String) : String :=
  ((splitChAux '=' part.toList []).getD 1 []).asString

/-- Remove every occurrence of `pat` from the character list, with a fuel
argument equal to the input length so the recursion is structural
(Python `s.replace(pat, "")`). -/
def removeAllAux (pat : List Char) : Nat → List Char → List Char
  | 0, l => l
  | _ + 1, [] => []
  | f + 1, c :: cs =>
    if chStarts pat (c :: cs) then
      removeAllAux pat f (List.drop (pat.length - 1) cs)
    else c :: removeAllAux pat f cs

/-- Python `s.replace(pat, "")` for a non-empty pattern. -/
def pyRemoveAll (pat s : String) : String :=
  (removeAllAux pat.toList s.toList.length s.toList).asString

/-- Value of a decimal digit list, most significant first. -/
def digitsToNat (l : List Char) : Nat :=
  l.foldl (fun a c => a * 10 + (c.toNat - '0'.toNat)) 0

/-- A non-empty all-digit character list, or failure. -/
def parseNatDigits? (l : List Char) : Option Nat :=
  if l ≠ [] ∧ l.all Char.isDigit then some (digitsToNat l) else none

/-- Python `int(s)` on the tokens the parser meets: optional sign
followed by decimal digits; anything else raises (here: `none`). -/
def parseInt? (s : String) : Option Int :=
  match s.toList with
  | '-' :: rest => (parseNatDigits? rest).map (fun n => -(n : Int))
  | '+' :: rest => (parseNatDigits? rest).map (fun n => (n : Int))
  | l => (parseNatDigits? l).map (fun n => (n : Int))

/-- Unsigned decimal numeral with an optional fractional part, as an
exact rational. -/
def parseUnsignedFloat? (l : List Char) : Option Rat :=
  if '.' ∈ l then
    let ip := l.takeWhile (· ≠ '.')
    let fp := (l.dropWhile (· ≠ '.')).tail
    if ip.all Char.isDigit ∧ fp.all Char.isDigit ∧ ¬ '.' ∈ fp ∧
        (ip ≠ [] ∨ fp ≠ []) then
      some (mkRat (digitsToNat ip * 10 ^ fp.length + digitsToNat fp)
        (10 ^ fp.length))
    else none
  else (parseNatDigits? l).map (fun n => (n : Rat))

/-- Python `float(s)` on the tokens the parser meets: optional sign and
a decimal numeral with an optional fractional part; anything else raises
(here: `none`). -/
def parseFloat? (s : String) : Option Rat :=
  match s.toList with
  | '-' :: rest => (parseUnsignedFloat? rest).map (fun q => -q)
  | '+' :: rest => parseUnsignedFloat? rest
  | l => parseUnsignedFloat? l

/-- Severity tag of a log event (`log_type` column / argument). -/
inductive LogType
  | INFO
  | DEBUG
  | ERROR
deriving DecidableEq, Repr

/-- One log entry as produced by `StreamingProcess.log_message`: the
formatted text `"[timestamp] message"` together with its severity. -/
structure LogEntry where
  text : String
  log_type : LogType
deriving DecidableEq, Repr

/-- The value of `stats['size']`: the Python dict starts it as the
integer `0` and `parse_ffmpeg_output` overwrites it with the raw string
token from the encoder output. -/
inductive SizeVal
  | int0
  | str (s : String)
deriving DecidableEq, Repr

/-- The `self.stats` dictionary of `StreamingProcess`. -/
structure Stats where
  frames_processed : Int
  bitrate : Rat
  fps : Rat
  size : SizeVal
deriving DecidableEq, Repr

/-- Initial `self.stats` set in `StreamingProcess.__init__`. -/
def initStats : Stats :=
  { frames_processed := 0, bitrate := 0, fps := 0, size := SizeVal.int0 }

/-- The mutable state of one `StreamingProcess` instance: the process
handle (a pid, `none` when no process was ever spawned), the running
flag, the stats dictionary, the two `queue.Queue` objects (modelled as
lists, `put` appends at the tail, `get_nowait` pops the head), and the
durable `stream_logs` table the attached `StreamingDatabase` writes. -/
structure PPState where
  process : Option Nat
  is_running : Bool
  stats : Stats
  log_queue : List LogEntry
  stats_queue : List Stats
  db_logs : List LogEntry
deriving DecidableEq, Repr

/-- State built by `StreamingProcess.__init__` (fresh database). -/
def init_state : PPState :=
  { process := none, is_running := false, stats := initStats,
    log_queue := [], stats_queue := [], db_logs := [] }

/-- `StreamingProcess.log_message`: format the entry with the current
timestamp, save it to the database log table, and put it on the log
queue.  The wall-clock timestamp is passed in as the string `ts`. -/
def log_message (ts : String) (message : String) (log_type : LogType)
    (st : PPState) : PPState :=
  let entry : LogEntry := { text := "[" ++ ts ++ "] " ++ message, log_type }
  { st with db_logs := st.db_logs ++ [entry],
            log_queue := st.log_queue ++ [entry] }

/-- The partial update dictionary `stats_update` that
`parse_ffmpeg_output` accumulates over the tokens of one line. -/
structure StatsUpdate where
  frames_processed : Option Int := none
  fps : Option Rat := none
  bitrate : Option Rat := none
  size : Option String := none
deriving DecidableEq, Repr

/-- One iteration of the token loop in `parse_ffmpeg_output`: extend the
update dictionary from one whitespace-delimited token, or raise
(`Except.error`) when a numeric conversion fails, exactly where the
Python `int(...)` / `float(...)` calls raise. -/
def procPart (u : StatsUpdate) (part : String) : Except String StatsUpdate :=
  if pyStartsWith part "frame=" then
    match parseInt? (eqField1 part) with
    | some n => Except.ok { u with frames_processed := some n }
    | none =>
      Except.error ("invalid literal for int with base 10: " ++ eqField1 part)
  else if pyStartsWith part "fps=" then
    match parseFloat? (eqField1 part) with
    | some q => Except.ok { u with fps := some q }
    | none =>
      Except.error ("could not convert string to float: " ++ eqField1 part)
  else if pyStartsWith part "bitrate=" then
    let bitrate_str := eqField1 part
    if pyIn "kbits/s" bitrate_str then
      match parseFloat? (pyRemoveAll "kbits/s" bitrate_str) with
      | some q => Except.ok { u with bitrate := some q }
      | none =>
        Except.error ("could not convert string to float: " ++
          pyRemoveAll "kbits/s" bitrate_str)
    else Except.ok u
  else if pyStartsWith part "size=" then
    Except.ok { u with size := some (eqField1 part) }
  else Except.ok u

/-- The whole token loop of `parse_ffmpeg_output` on the split line: the
first raising token aborts the loop with the error, as the Python
exception does. -/
def buildUpdate (parts : List String) : Except String StatsUpdate :=
  parts.foldlM procPart {}

/-- Python truthiness of the `stats_update` dict: at least one key set. -/
def StatsUpdate.nonempty (u : StatsUpdate) : Bool :=
  u.frames_processed.isSome || u.fps.isSome || u.bitrate.isSome || u.size.isSome

/-- `self.stats.update(stats_update)`: overwrite exactly the keys the
update dictionary carries. -/
def applyUpdate (s : Stats) (u : StatsUpdate) : Stats :=
  { frames_processed := u.frames_processed.getD s.frames_processed,
    fps := u.fps.getD s.fps,
    bitrate := u.bitrate.getD s.bitrate,
    size := match u.size with
            | some t => SizeVal.str t
            | none => s.size }

/-- The metrics-line test guarding the parser:
`"frame=" in line and "fps=" in line and "bitrate=" in line`. -/
def is_metrics_line (line : String) : Bool :=
  pyIn "frame=" line && pyIn "fps=" line && pyIn "bitrate=" line

/-- `StreamingProcess.parse_ffmpeg_output`: on a metrics line, build the
token-wise update; if no token raised and the update dict is non-empty,
apply it to `self.stats` and put a copy of the new stats on the stats
queue; if a token raised, the `except` clause logs the error at `ERROR`
severity and the stats are left untouched. -/
def parse_ffmpeg_output (ts : String) (st : PPState) (line : String) :
    PPState :=
  if is_metrics_line line then
    match buildUpdate (pySplitWs line) with
    | Except.ok u =>
      if u.nonempty then
        let s := applyUpdate st.stats u
        { st with stats := s, stats_queue := st.stats_queue ++ [s] }
      else st
    | Except.error e =>
      log_message ts ("Error parsing FFmpeg output: " ++ e) LogType.ERROR st
  else st

/-- Severity the reader loop assigns to one non-empty output line:
`ERROR` when the raw line case-insensitively contains `error` or
`failed`, otherwise `DEBUG`. -/
def classify_output_line (line : String) : LogType :=
  if pyIn "error" (pyLower line) || pyIn "failed" (pyLower line) then
    LogType.ERROR
  else LogType.DEBUG

/-- The `for line in self.process.stdout` loop of `run_ffmpeg_stream`:
break when the running flag is cleared, skip whitespace-only lines, and
otherwise parse the line and log its stripped text at the classified
severity.  `lines` is the sequence of lines the child process emits. -/
def reader_loop (ts : String) (st : PPState) : List String → PPState
  | [] => st
  | line :: rest =>
    if st.is_running = false then st
    else if pyStrip line ≠ "" then
      reader_loop ts
        (log_message ts (pyStrip line) (classify_output_line line)
          (parse_ffmpeg_output ts st line)) rest
    else reader_loop ts st rest

/-- A stream configuration dictionary as the UI builds it.  `name` is
optional because the code reads it with `config.get('name', ...)`. -/
structure Config where
  name : Option String
  stream_key : String
  video_path : String
  is_shorts : Bool
  bitrate : Int
  resolution : String
deriving DecidableEq, Repr

/-- The FFmpeg argument list `run_ffmpeg_stream` builds from the
config: fixed encoder settings, the bitrate from the config, a scale
filter chosen by the shorts flag or the resolution, and the RTMP output
URL carrying the raw stream key. -/
def build_cmd (config : Config) : List String :=
  let base :=
    ["ffmpeg", "-re", "-stream_loop", "-1", "-i", config.video_path,
     "-c:v", "libx264", "-preset", "veryfast",
     "-b:v", toString config.bitrate ++ "k",
     "-maxrate", toString config.bitrate ++ "k",
     "-bufsize", toString (config.bitrate * 2) ++ "k",
     "-g", "60", "-keyint_min", "60",
     "-c:a", "aac", "-b:a", "128k",
     "-f", "flv"]
  let scaled :=
    if config.is_shorts then base ++ ["-vf", "scale=720:1280"]
    else if config.resolution ≠ "original" then
      if config.resolution = "1080p" then base ++ ["-vf", "scale=1920:1080"]
      else if config.resolution = "720p" then base ++ ["-vf", "scale=1280:720"]
      else if config.resolution = "480p" then base ++ ["-vf", "scale=854:480"]
      else base
    else base
  scaled ++ ["rtmp://a.rtmp.youtube.com/live2/" ++ config.stream_key]

/-- Outcome of the `subprocess.Popen` call: the pid of the spawned
child, or the message of the exception the launch raised (missing
executable, launch failure). -/
def SpawnResult := Except String Nat

/-- Lines 219-259 of `run_ffmpeg_stream`: the four start-up log
messages followed by the spawn attempt.  On success the process handle
is stored and the running flag is set (in that order); on failure the
exception propagates to the caller of this phase (second component
`false`) with the state as it was after the logs. -/
def run_spawn_phase (ts : String) (config : Config) (spawn : SpawnResult)
    (st : PPState) : PPState × Bool :=
  let st1 := log_message ts
    ("Starting stream: " ++ config.name.getD "Manual Stream") LogType.INFO st
  let st2 := log_message ts ("Video: " ++ config.video_path) LogType.INFO st1
  let st3 := log_message ts ("Resolution: " ++ config.resolution)
    LogType.INFO st2
  let st4 := log_message ts ("Bitrate: " ++ toString config.bitrate ++ "k")
    LogType.INFO st3
  match spawn with
  | Except.ok pid => ({ st4 with process := some pid, is_running := true }, true)
  | Except.error _ => (st4, false)

/-- The `finally` clause of `run_ffmpeg_stream`: clear the running flag
and log the end of the streaming thread. -/
def run_finally (ts : String) (st : PPState) : PPState :=
  log_message ts "Streaming process ended" LogType.INFO
    { st with is_running := false }

/-- `StreamingProcess.run_ffmpeg_stream`, the body of the streaming
thread, sequentialised: spawn phase, then — if the spawn succeeded — the
reader loop over the child's output followed by `process.wait()`; a
spawn exception is caught by the `except` clause and logged as
`"Streaming error: ..."` at `ERROR` severity; either way the `finally`
clause clears the running flag and logs the thread end. -/
def run_ffmpeg_stream (ts : String) (config : Config) (spawn : SpawnResult)
    (lines : List String) (st : PPState) : PPState :=
  match run_spawn_phase ts config spawn st with
  | (st1, ok) =>
    if ok then run_finally ts (reader_loop ts st1 lines)
    else
      run_finally ts
        (log_message ts
          ("Streaming error: " ++
            (match spawn with | Except.error e => e | Except.ok _ => ""))
          LogType.ERROR st1)

/-- `StreamingProcess.start_stream`: refuse when the running flag is
already set, otherwise spawn the streaming thread (whose body is
`run_ffmpeg_stream`, modelled separately) and return success.  Nothing
of the state is read or written besides the flag check. -/
def start_stream (st : PPState) : PPState × Bool × String :=
  if st.is_running then (st, false, "Stream already running")
  else (st, true, "Stream started successfully")

/-- Grace period of `self.process.wait(timeout=5)` in `stop_stream`. -/
def gracePeriod : Nat := 5

/-- Which platform branch `os.name == 'nt'` selects. -/
inductive OsName
  | nt
  | posix
deriving DecidableEq, Repr

/-- A signal sent while stopping: a process-group signal
(`os.killpg(os.getpgid(pid), ...)` on POSIX) or a direct one
(`process.terminate()` / `process.kill()` on Windows). -/
inductive KillEvent
  | terminate_group (pid : Nat)
  | kill_group (pid : Nat)
  | terminate_one
  | kill_one
deriving DecidableEq, Repr

/-- Environment behaviour `stop_stream` cannot control: whether the
first signalling call raises (stale handle, failed process-group
lookup) and with what message, and whether the child exits within the
grace period of the `wait(timeout=5)` call. -/
structure StopBehavior where
  sig_raises : Bool
  err_msg : String
  exits_within_grace : Bool
deriving DecidableEq, Repr

/-- `StreamingProcess.stop_stream`.  Returns the successor state, the
`(bool, message)` result pair, and the timed trace of signals sent
(time `0` = the moment the graceful signal is issued; the forced kill,
when needed, happens when `wait(timeout=5)` raises `TimeoutExpired`,
i.e. at time `gracePeriod`).  When the running flag is clear it returns
the failure pair and sends nothing.  Otherwise it clears the flag,
signals the child (swallowing any exception into an `ERROR` log), logs
`"Stream stopped by user"` and returns success. -/
def stop_stream (ts : String) (osn : OsName) (beh : StopBehavior)
    (st : PPState) : PPState × (Bool × String) × List (Nat × KillEvent) :=
  if st.is_running = false then (st, (false, "No stream running"), [])
  else
    let st1 : PPState := { st with is_running := false }
    let sigPart : PPState × List (Nat × KillEvent) :=
      match st1.process with
      | none => (st1, [])
      | some pid =>
        if beh.sig_raises then
          (log_message ts ("Error stopping stream: " ++ beh.err_msg)
            LogType.ERROR st1, [])
        else
          match osn with
          | OsName.nt =>
            if beh.exits_within_grace then (st1, [(0, KillEvent.terminate_one)])
            else (st1, [(0, KillEvent.terminate_one),
                        (gracePeriod, KillEvent.kill_one)])
          | OsName.posix =>
            if beh.exits_within_grace then
              (st1, [(0, KillEvent.terminate_group pid)])
            else
              (st1, [(0, KillEvent.terminate_group pid),
                     (gracePeriod, KillEvent.kill_group pid)])
    (log_message ts "Stream stopped by user" LogType.INFO sigPart.1,
     (true, "Stream stopped successfully"), sigPart.2)

/-- `queue.Queue.put` on the stats queue
(`self.stats_queue.put(self.stats.copy())`). -/
def push_stats (st : PPState) (s : Stats) : PPState :=
  { st with stats_queue := st.stats_queue ++ [s] }

/-- The drain loop of `get_new_stats`: pop every queued snapshot,
keeping only the last one popped. -/
def drainLastAux : Option Stats → List Stats → Option Stats
  | acc, [] => acc
  | _, s :: rest => drainLastAux (some s) rest

/-- `StreamingProcess.get_new_stats`: drain the whole stats queue and
return the most recent snapshot, or `none` when the queue was empty. -/
def get_new_stats (st : PPState) : Option Stats × PPState :=
  (drainLastAux none st.stats_queue, { st with stats_queue := [] })

/-- The drain loop of `get_new_logs`: pop every queued entry, appending
each to the result list. -/
def drainAllAux (acc : List LogEntry) : List LogEntry → List LogEntry
  | [] => acc
  | e :: rest => drainAllAux (acc ++ [e]) rest

/-- `StreamingProcess.get_new_logs`: drain the whole log queue in FIFO
order. -/
def get_new_logs (st : PPState) : List LogEntry × PPState :=
  (drainAllAux [] st.log_queue, { st with log_queue := [] })

/-- One producer/consumer event on the log channel: the reader thread
putting one entry, or a caller draining via `get_new_logs`. -/
inductive ChanOp
  | push (e : LogEntry)
  | drain
deriving DecidableEq, Repr

/-- Linearised execution of channel events: the state together with the
concatenation of everything the drain calls have returned so far. -/
def chanStep : PPState × List LogEntry → ChanOp → PPState × List LogEntry
  | (st, out), ChanOp.push e =>
    ({ st with log_queue := st.log_queue ++ [e] }, out)
  | (st, out), ChanOp.drain =>
    ((get_new_logs st).2, out ++ (get_new_logs st).1)

/-- Run a sequence of channel events from `st` with nothing drained. -/
def chanRun (st : PPState) (ops : List ChanOp) : PPState × List LogEntry :=
  ops.foldl chanStep (st, [])

/-- The log entries pushed by a sequence of channel events, in
production order. -/
def pushedOf : List ChanOp → List LogEntry
  | [] => []
  | ChanOp.push e :: rest => e :: pushedOf rest
  | ChanOp.drain :: rest => pushedOf rest

/-- One row of the `stream_history` table. -/
structure HistoryRecord where
  config_name : String
  start_time : Nat
  end_time : Option Nat
  status : String
  duration : Int
  video_path : String
  stream_key_hash : String
deriving DecidableEq, Repr

/-- The credential field `save_stream_history` stores:
`str(hash(stream_key))[:8] if stream_key else ""`.  Python's builtin
string hash is an abstract parameter `pyHash` (it is salted per
process); only its decimal string rendering, truncated to 8
characters, ever reaches the record. -/
def short_key_hash (pyHash : String → Int) (stream_key : String) : String :=
  if stream_key ≠ "" then ((toString (pyHash stream_key)).toList.take 8).asString
  else ""

/-- `StreamingDatabase.save_stream_history`: append one row; times are
seconds, `duration` is `end_time - start_time` when an end time exists
and `0` otherwise. -/
def save_stream_history (pyHash : String → Int) (db : List HistoryRecord)
    (config_name : String) (start_time : Nat) (end_time : Option Nat)
    (status : String) (video_path : String) (stream_key : String) :
    List HistoryRecord :=
  let duration : Int :=
    match end_time with
    | some e => (e : Int) - (start_time : Int)
    | none => 0
  db ++ [{ config_name, start_time, end_time, status, duration, video_path,
           stream_key_hash := short_key_hash pyHash stream_key }]

/-- The history row `AdvancedStreamer.start_streaming` writes when the
stream starts: status `Started`, no end time, and the config's raw
stream key passed down to `save_stream_history` for hashing. -/
def start_streaming_history (pyHash : String → Int) (db : List HistoryRecord)
    (config : Config) (now : Nat) : List HistoryRecord :=
  save_stream_history pyHash db (config.name.getD "Manual Stream") now none
    "Started" config.video_path config.stream_key

deriving instance DecidableEq for Except

/-- A `StreamingProcess` whose streaming thread has spawned the child
(pid 77) and set the running flag, with no output consumed yet. -/
def running_state : PPState :=
  { init_state with process := some 77, is_running := true }

/-- The progress line of the spec's concrete parsing example. -/
def ex_line : String := "frame=120 fps=30.2 bitrate=2500.0kbits/s size=10MB"

/-- A metrics line whose `frame` token parses but whose `fps` token
raises inside `float(...)`. -/
def cex5_line : String := "frame=120 fps=abc bitrate=2500.0kbits/s"

/-- A line containing the substrings `frame=`, `fps=` and `bitrate=`
without any whitespace token starting with a recognized key. -/
def cex6_line : String := "aframe=1 afps=2 abitrate=3kbits/s"

/-- A concrete stream configuration. -/
def cfg0 : Config :=
  { name := some "Test", stream_key := "secret", video_path := "video.mp4",
    is_shorts := false, bitrate := 2500, resolution := "720p" }

theorem str_append_assoc (a b c : String) : a ++ b ++ c = a ++ (b ++ c) := by
  apply String.ext
  simp [String.data_append]

theorem drainAllAux_eq (l : List LogEntry) :
    ∀ acc, drainAllAux acc l = acc ++ l := by
  induction l with
  | nil => intro acc; simp [drainAllAux]
  | cons e rest ih => intro acc; simp [drainAllAux, ih]

theorem drainLastAux_append (l : List Stats) (s : Stats) :
    ∀ acc, drainLastAux acc (l ++ [s]) = some s := by
  induction l with
  | nil => intro acc; simp [drainLastAux]
  | cons x rest ih => intro acc; simpa [drainLastAux] using ih (some x)

theorem foldl_push_stats_queue (ss : List Stats) :
    ∀ st : PPState,
      (List.foldl push_stats st ss).stats_queue = st.stats_queue ++ ss := by
  induction ss with
  | nil => intro st; simp
  | cons s rest ih => intro st; simp [push_stats, ih]

theorem chanStep_invariant (ops : List ChanOp) :
    ∀ p : PPState × List LogEntry,
      (List.foldl chanStep p ops).2 ++ (List.foldl chanStep p ops).1.log_queue
        = p.2 ++ p.1.log_queue ++ pushedOf ops := by
  induction ops with
  | nil => intro p; simp [pushedOf]
  | cons op rest ih =>
    intro p
    match op with
    | ChanOp.push e =>
      simpa [chanStep, pushedOf] using ih ({ p.1 with log_queue := p.1.log_queue ++ [e] }, p.2)
    | ChanOp.drain =>
      simpa [chanStep, pushedOf, get_new_logs, drainAllAux_eq] using
        ih ({ p.1 with log_queue := [] }, p.2 ++ p.1.log_queue)

/-- C7: `get_new_stats` returns and clears the latest coalesced
snapshot: after any sequence of pushes ending in `s` (on top of any
pending backlog), one call returns `s`, the most recently pushed
snapshot; a second call with no intervening push returns `none`. -/
theorem get_new_stats_coalesces (st : PPState) (ss : List Stats) (s : Stats) :
    (get_new_stats (List.foldl push_stats st (ss ++ [s]))).1 = some s ∧
    (get_new_stats
      ((get_new_stats (List.foldl push_stats st (ss ++ [s]))).2)).1 = none := by
  constructor
  · rw [get_new_stats]
    rw [foldl_push_stats_queue]
    rw [show st.stats_queue ++ (ss ++ [s]) = (st.stats_queue ++ ss) ++ [s] by simp]
    exact drainLastAux_append _ _ _
  · simp [get_new_stats, drainLastAux]

/-- C8: `get_new_logs` returns every queued log entry in production
order and empties the queue, and over any linearised sequence of pushes
and drains the concatenation of everything drained, followed by what is
still pending, is exactly the pushed entries in order — so an entry is
never returned twice, and a drain with nothing pending returns `[]`. -/
theorem get_new_logs_fifo_exact (st : PPState) (ops : List ChanOp) :
    (get_new_logs st).1 = st.log_queue ∧
    (get_new_logs st).2.log_queue = [] ∧
    (get_new_logs { st with log_queue := [] }).1 = [] ∧
    (chanRun st ops).2 ++ (chanRun st ops).1.log_queue
      = st.log_queue ++ pushedOf ops := by
  refine ⟨by simp [get_new_logs, drainAllAux_eq], rfl,
    by simp [get_new_logs, drainAllAux], ?_⟩
  simpa [chanRun] using chanStep_invariant ops (st, [])

/-- C1: on the POSIX branch, with a running stream whose handle is
`pid` and no exception while signalling, `stop_stream` first sends
`SIGTERM` to the child's whole process group at time `0`; when the
child exits within the 5-unit grace period no other signal is sent, and
only when it is still alive after the grace period is `SIGKILL` sent to
the process group — every forced kill in the trace is issued no earlier
than `gracePeriod`. -/
theorem stop_stream_graceful_then_forced (ts : String) (pid : Nat)
    (beh : StopBehavior) (st : PPState)
    (hrun : st.is_running = true) (hproc : st.process = some pid)
    (hok : beh.sig_raises = false) :
    (stop_stream ts OsName.posix beh st).2.2.head?
      = some (0, KillEvent.terminate_group pid) ∧
    (beh.exits_within_grace = true →
      (stop_stream ts OsName.posix beh st).2.2
        = [(0, KillEvent.terminate_group pid)]) ∧
    (beh.exits_within_grace = false →
      (stop_stream ts OsName.posix beh st).2.2
        = [(0, KillEvent.terminate_group pid),
           (gracePeriod, KillEvent.kill_group pid)]) ∧
    (∀ t q, (t, KillEvent.kill_group q) ∈ (stop_stream ts OsName.posix beh st).2.2 →
      gracePeriod ≤ t) := by
  cases hexit : beh.exits_within_grace <;>
    simp [stop_stream, hrun, hproc, hok, hexit]

/-- Witness for C1 at a concrete running state and a child that ignores
the graceful signal. -/
theorem stop_stream_graceful_then_forced_witness :
    (∀ t q,
      (t, KillEvent.kill_group q) ∈
        (stop_stream "t" OsName.posix
          { sig_raises := false, err_msg := "", exits_within_grace := false }
          running_state).2.2 →
      gracePeriod ≤ t) ∧
    (stop_stream "t" OsName.posix
        { sig_raises := false, err_msg := "", exits_within_grace := false }
        running_state).2.2
      = [(0, KillEvent.terminate_group 77), (gracePeriod, KillEvent.kill_group 77)] := by
  have h := stop_stream_graceful_then_forced "t" 77
    { sig_raises := false, err_msg := "", exits_within_grace := false }
    running_state rfl rfl rfl
  exact ⟨h.2.2.2, h.2.2.1 rfl⟩

/-- C2: starting from an idle supervisor, `start_stream` succeeds, the
streaming thread's spawn phase leaves the running flag set, and a
second `start_stream` call before any stop or natural exit returns the
failure pair `(False, "Stream already running")` with the first
session's entire state (process handle, stats, queues, flag) returned
untouched. -/
theorem start_stream_second_call_rejected (ts : String) (config : Config)
    (pid : Nat) (st0 : PPState) (h : st0.is_running = false) :
    (start_stream st0).2 = (true, "Stream started successfully") ∧
    (run_spawn_phase ts config (Except.ok pid) (start_stream st0).1).1.is_running
      = true ∧
    start_stream (run_spawn_phase ts config (Except.ok pid) (start_stream st0).1).1
      = ((run_spawn_phase ts config (Except.ok pid) (start_stream st0).1).1,
         false, "Stream already running") := by
  refine ⟨by simp [start_stream, h], rfl, ?_⟩
  simp [start_stream, run_spawn_phase]

/-- Witness for C2 from the freshly constructed supervisor state. -/
theorem start_stream_second_call_rejected_witness :
    start_stream (run_spawn_phase "t" cfg0 (Except.ok 77) (start_stream init_state).1).1
      = ((run_spawn_phase "t" cfg0 (Except.ok 77) (start_stream init_state).1).1,
         false, "Stream already running") :=
  (start_stream_second_call_rejected "t" cfg0 77 init_state rfl).2.2

/-- C10: whenever the running flag is set, `stop_stream` returns
`(True, "Stream stopped successfully")` and clears the flag, for every
platform and every environment behaviour; when the signalling raises,
the exception is swallowed: no signal is recorded, the failure is
reported only as an `ERROR` log entry (followed by the usual
`"Stream stopped by user"`), and the caller still sees success. -/
theorem stop_stream_swallows_signal_errors (ts : String) (osn : OsName)
    (beh : StopBehavior) (st : PPState) (hrun : st.is_running = true) :
    (stop_stream ts osn beh st).2.1 = (true, "Stream stopped successfully") ∧
    (stop_stream ts osn beh st).1.is_running = false ∧
    (∀ pid, st.process = some pid → beh.sig_raises = true →
      (stop_stream ts osn beh st).1.log_queue
        = st.log_queue ++
          [{ text := "[" ++ ts ++ "] " ++ ("Error stopping stream: " ++ beh.err_msg),
             log_type := LogType.ERROR },
           { text := "[" ++ ts ++ "] " ++ "Stream stopped by user",
             log_type := LogType.INFO }] ∧
      (stop_stream ts osn beh st).2.2 = []) := by
  refine ⟨?_, ?_, ?_⟩
  · simp [stop_stream, hrun]
  · rcases hp : st.process with _ | pid <;>
      rcases hr : beh.sig_raises with _ | _ <;>
      rcases osn with _ | _ <;>
      rcases he : beh.exits_within_grace with _ | _ <;>
      simp [stop_stream, hrun, hp, hr, he, log_message]
  · intro pid hp hr
    constructor <;> simp [stop_stream, hrun, hp, hr, log_message, str_append_assoc]

/-- Witness for C10 at a concrete running state whose signalling call
raises. -/
theorem stop_stream_swallows_signal_errors_witness :
    (stop_stream "t" OsName.posix
        { sig_raises := true, err_msg := "boom", exits_within_grace := true }
        running_state).2.1
      = (true, "Stream stopped successfully") ∧
    (stop_stream "t" OsName.posix
        { sig_raises := true, err_msg := "boom", exits_within_grace := true }
        running_state).1.is_running = false := by
  have h := stop_stream_swallows_signal_errors "t" OsName.posix
    { sig_raises := true, err_msg := "boom", exits_within_grace := true }
    running_state rfl
  exact ⟨h.1, h.2.1⟩

/-- C9: the credential field stored by `save_stream_history` is always
`short_key_hash` — the first 8 characters of the builtin hash's string
form, or `""` for an empty key; the written rows depend on the raw
stream key only through that short hash (so two keys with the same
short hash produce identical rows and the raw credential itself is
never written), the field never exceeds 8 characters, and the
`Started` row written by `AdvancedStreamer.start_streaming` stores the
same short hash of the config's key. -/
theorem history_stores_only_short_hash (pyHash : String → Int)
    (db : List HistoryRecord) (n : String) (s : Nat) (e : Option Nat)
    (status v k k' : String)
    (h : short_key_hash pyHash k = short_key_hash pyHash k') :
    save_stream_history pyHash db n s e status v k
      = save_stream_history pyHash db n s e status v k' ∧
    (save_stream_history pyHash db n s e status v k).map
        (fun r => r.stream_key_hash)
      = db.map (fun r => r.stream_key_hash) ++ [short_key_hash pyHash k] ∧
    (short_key_hash pyHash k).length ≤ 8 ∧
    short_key_hash pyHash "" = "" ∧
    (∀ config now,
      (start_streaming_history pyHash db config now).map
          (fun r => r.stream_key_hash)
        = db.map (fun r => r.stream_key_hash)
          ++ [short_key_hash pyHash config.stream_key]) := by
  refine ⟨by simp [save_stream_history, h], by simp [save_stream_history], ?_,
    by simp [short_key_hash], ?_⟩
  · rw [short_key_hash]
    by_cases hk : k = ""
    · simp [hk]
    · simp only [hk, if_pos, ne_eq, not_false_iff, if_true]
      calc (((toString (pyHash k)).toList.take 8).asString).length
          = ((toString (pyHash k)).toList.take 8).length :=
            List.length_asString _
        _ ≤ 8 := List.length_take_le 8 (toString (pyHash k)).toList
  · intro config now
    simp [start_streaming_history, save_stream_history]

/-- Witness for C9 with a concrete hash function and two distinct keys
whose short hashes agree. -/
theorem history_stores_only_short_hash_witness :
    save_stream_history (fun _ => 7) [] "n" 0 none "Started" "v" "key-a"
      = save_stream_history (fun _ => 7) [] "n" 0 none "Started" "v" "key-b" ∧
    short_key_hash (fun _ => 7) "key-a" = "7" :=
  ⟨(history_stores_only_short_hash (fun _ => 7) [] "n" 0 none "Started" "v"
      "key-a" "key-b" (by decide)).1, by decide⟩

/-- C3 counterexample: with a concrete idle supervisor and a spawn that
raises, the caller of `start_stream` still receives the success pair —
the spawn failure is not surfaced to it; the failure only shows up as
an `ERROR` log event of the streaming thread, whose final state is back
to idle. -/
theorem spawn_failure_not_surfaced_cex :
    (start_stream init_state).2 = (true, "Stream started successfully") ∧
    (run_ffmpeg_stream "t" cfg0 (Except.error "No such file or directory: ffmpeg")
        [] (start_stream init_state).1).is_running = false ∧
    { text := "[t] Streaming error: No such file or directory: ffmpeg",
      log_type := LogType.ERROR } ∈
      (run_ffmpeg_stream "t" cfg0 (Except.error "No such file or directory: ffmpeg")
        [] (start_stream init_state).1).log_queue := by
  refine ⟨by decide, by decide, ?_⟩
  decide

/-- C3 amended: when spawning the encoder fails, the caller of
`start_stream` has already been answered with the success pair (the
spawn happens on the streaming thread), so no `SpawnError` propagates
to it; the streaming thread logs the failure as
`"Streaming error: ..."` at `ERROR` severity and the state reverts to
idle (`is_running = false`).  The only failure results any caller ever
receives are the two precondition violations: `start_stream` on a
running stream and `stop_stream` on an idle one. -/
theorem spawn_failure_logged_and_reverts_to_idle (ts msg : String)
    (config : Config) (lines : List String) (st : PPState)
    (h : st.is_running = false) :
    (start_stream st).2 = (true, "Stream started successfully") ∧
    (run_ffmpeg_stream ts config (Except.error msg) lines (start_stream st).1).is_running
      = false ∧
    { text := "[" ++ ts ++ "] " ++ ("Streaming error: " ++ msg),
      log_type := LogType.ERROR } ∈
      (run_ffmpeg_stream ts config (Except.error msg) lines (start_stream st).1).log_queue ∧
    (∀ st' : PPState, (start_stream st').2.1 = false →
      (start_stream st').2.2 = "Stream already running") ∧
    (∀ (ts' : String) (osn : OsName) (beh : StopBehavior) (st' : PPState),
      (stop_stream ts' osn beh st').2.1.1 = false →
      (stop_stream ts' osn beh st').2.1.2 = "No stream running") := by
  refine ⟨by simp [start_stream, h], ?_, ?_, ?_, ?_⟩
  · simp [start_stream, h, run_ffmpeg_stream, run_spawn_phase, run_finally,
      log_message]
  · simp [start_stream, h, run_ffmpeg_stream, run_spawn_phase, run_finally,
      log_message]
  · intro st' hfail
    by_cases hr : st'.is_running <;> simp [start_stream, hr] at hfail ⊢
  · intro ts' osn beh st' hfail
    by_cases hr : st'.is_running = false
    · simp [stop_stream, hr]
    · simp [stop_stream, hr] at hfail

/-- Witness for C3's amended theorem at a concrete idle state and
spawn error. -/
theorem spawn_failure_logged_and_reverts_to_idle_witness :
    (run_ffmpeg_stream "t" cfg0 (Except.error "boom") []
        (start_stream init_state).1).is_running = false :=
  (spawn_failure_logged_and_reverts_to_idle "t" "boom" cfg0 [] init_state rfl).2.1

/-- C4 counterexample: `"hello world"` is a non-empty output line that
contains neither `error` nor `failed` and is not a metrics line, yet
the reader loop logs it at `DEBUG` severity, not `INFO`. -/
theorem nonmetrics_line_not_info_cex :
    pyIn "error" (pyLower "hello world") = false ∧
    pyIn "failed" (pyLower "hello world") = false ∧
    is_metrics_line "hello world" = false ∧
    (reader_loop "t" running_state ["hello world"]).log_queue
      = [{ text := "[t] hello world", log_type := LogType.DEBUG }] ∧
    LogType.DEBUG ≠ LogType.INFO := by
  refine ⟨by decide, by decide, by decide, by decide, by decide⟩

/-- C4 amended: while running, every output line with non-empty
stripped text is logged once, at `ERROR` severity when the raw line
case-insensitively contains `error` or `failed`, and at `DEBUG`
severity otherwise — for every non-empty line, metrics or not; `INFO`
is never assigned to an output line.  A line containing
`Error opening output` is classified `ERROR` even though it also
matches the metrics-line pattern. -/
theorem output_line_severity (ts line : String) (st : PPState)
    (hrun : st.is_running = true) (hne : pyStrip line ≠ "") :
    reader_loop ts st [line]
      = log_message ts (pyStrip line) (classify_output_line line)
          (parse_ffmpeg_output ts st line) ∧
    ((pyIn "error" (pyLower line) || pyIn "failed" (pyLower line)) = true →
      classify_output_line line = LogType.ERROR) ∧
    ((pyIn "error" (pyLower line) || pyIn "failed" (pyLower line)) = false →
      classify_output_line line = LogType.DEBUG) ∧
    (∀ l : String, classify_output_line l ≠ LogType.INFO) ∧
    classify_output_line "Error opening output frame=1 fps=2 bitrate=3kbits/s"
      = LogType.ERROR ∧
    is_metrics_line "Error opening output frame=1 fps=2 bitrate=3kbits/s"
      = true := by
  refine ⟨by simp [reader_loop, hrun, hne], ?_, ?_, ?_, by decide, by decide⟩
  · intro hc; simp [classify_output_line, hc]
  · intro hc; simp [classify_output_line, hc]
  · intro l
    rw [classify_output_line]
    by_cases hb : (pyIn "error" (pyLower l) || pyIn "failed" (pyLower l)) = true <;>
      simp [hb]

/-- Witness for C4's amended theorem on a concrete running state and
line. -/
theorem output_line_severity_witness :
    reader_loop "t" running_state ["hello world"]
      = log_message "t" (pyStrip "hello world")
          (classify_output_line "hello world")
          (parse_ffmpeg_output "t" running_state "hello world") :=
  (output_line_severity "t" "hello world" running_state rfl (by decide)).1

/-- C5 counterexample: on the metrics line
`"frame=120 fps=abc bitrate=2500.0kbits/s"` the token `frame=120`
parses successfully on its own, yet because the later `fps` token
raises, the whole line's update is discarded: `frames_processed` stays
`0` instead of becoming `120` and no snapshot is queued — the parse
failure is not skipped token-by-token. -/
theorem parse_partial_update_discarded_cex :
    is_metrics_line cex5_line = true ∧
    procPart {} "frame=120"
      = Except.ok { frames_processed := some 120 } ∧
    buildUpdate (pySplitWs cex5_line)
      = Except.error "could not convert string to float: abc" ∧
    (parse_ffmpeg_output "t" running_state cex5_line).stats
      = running_state.stats ∧
    running_state.stats.frames_processed = 0 ∧
    (0 : Int) ≠ 120 ∧
    (parse_ffmpeg_output "t" running_state cex5_line).stats_queue = [] := by
  refine ⟨by decide, by decide, by decide, by decide, by decide, by decide,
    by decide⟩

/-- C5 amended: token parsing is line-atomic, not field-by-field — the
first malformed token aborts the whole line and every update from
successfully parsed tokens on that line is discarded (stats and stats
queue unchanged); the failure is caught at line granularity and
reported as a single `ERROR` log event
(`"Error parsing FFmpeg output: ..."`), and it never aborts the reader
loop, which continues with the remaining lines. -/
theorem parse_error_line_atomic (ts line msg : String) (st : PPState)
    (herr : buildUpdate (pySplitWs line) = Except.error msg) :
    (parse_ffmpeg_output ts st line).stats = st.stats ∧
    (parse_ffmpeg_output ts st line).stats_queue = st.stats_queue ∧
    (is_metrics_line line = true →
      parse_ffmpeg_output ts st line
        = log_message ts ("Error parsing FFmpeg output: " ++ msg)
            LogType.ERROR st) ∧
    (st.is_running = true → pyStrip line ≠ "" → ∀ rest : List String,
      reader_loop ts st (line :: rest)
        = reader_loop ts
            (log_message ts (pyStrip line) (classify_output_line line)
              (parse_ffmpeg_output ts st line)) rest) := by
  by_cases hm : is_metrics_line line = true
  · refine ⟨?_, ?_, ?_, ?_⟩
    · simp [parse_ffmpeg_output, hm, herr, log_message]
    · simp [parse_ffmpeg_output, hm, herr, log_message]
    · intro _; simp [parse_ffmpeg_output, hm, herr]
    · intro hrun hne rest; simp [reader_loop, hrun, hne]
  · refine ⟨by simp [parse_ffmpeg_output, hm], by simp [parse_ffmpeg_output, hm],
      fun hc => absurd hc hm, ?_⟩
    intro hrun hne rest; simp [reader_loop, hrun, hne]

/-- Witness for C5's amended theorem at the concrete malformed line. -/
theorem parse_error_line_atomic_witness :
    (parse_ffmpeg_output "t" running_state cex5_line).stats
      = running_state.stats :=
  (parse_error_line_atomic "t" cex5_line
    "could not convert string to float: abc" running_state (by decide)).1

/-- C6 counterexample: `"aframe=1 afps=2 abitrate=3kbits/s"` contains
all three tokens `frame=`, `fps=` and `bitrate=` as substrings, yet
parsing updates nothing — the state (stats and stats queue included)
is returned unchanged, so "updates RuntimeStats iff it contains all
three tokens" fails left-to-right. -/
theorem metrics_containment_without_update_cex :
    is_metrics_line cex6_line = true ∧
    parse_ffmpeg_output "t" running_state cex6_line = running_state := by
  exact ⟨by decide, by decide⟩

/-- C6 amended: a line can update `RuntimeStats` only if it contains
all three tokens `frame=`, `fps=`, `bitrate=` (other lines are returned
untouched); within such a line, whitespace-delimited `key=value` tokens
are parsed as `frame` integer, `fps` float, `bitrate` float only when
the value carries a `kbits/s` unit suffix (otherwise the token is
ignored for that line), and `size` stored verbatim as a string; the
line `"frame=120 fps=30.2 bitrate=2500.0kbits/s size=10MB"` yields
`frames_processed = 120`, `fps = 30.2`, `bitrate = 2500.0`,
`size = "10MB"` and queues exactly that snapshot. -/
theorem metrics_parsing_rules :
    (∀ (ts : String) (st : PPState) (line : String),
      is_metrics_line line = false → parse_ffmpeg_output ts st line = st) ∧
    (∀ (u : StatsUpdate) (part : String) (n : Int),
      pyStartsWith part "frame=" = true →
      parseInt? (eqField1 part) = some n →
      procPart u part = Except.ok { u with frames_processed := some n }) ∧
    (∀ (u : StatsUpdate) (part : String) (q : Rat),
      pyStartsWith part "frame=" = false →
      pyStartsWith part "fps=" = true →
      parseFloat? (eqField1 part) = some q →
      procPart u part = Except.ok { u with fps := some q }) ∧
    (∀ (u : StatsUpdate) (part : String) (q : Rat),
      pyStartsWith part "frame=" = false →
      pyStartsWith part "fps=" = false →
      pyStartsWith part "bitrate=" = true →
      pyIn "kbits/s" (eqField1 part) = true →
      parseFloat? (pyRemoveAll "kbits/s" (eqField1 part)) = some q →
      procPart u part = Except.ok { u with bitrate := some q }) ∧
    (∀ (u : StatsUpdate) (part : String),
      pyStartsWith part "frame=" = false →
      pyStartsWith part "fps=" = false →
      pyStartsWith part "bitrate=" = true →
      pyIn "kbits/s" (eqField1 part) = false →
      procPart u part = Except.ok u) ∧
    (∀ (u : StatsUpdate) (part : String),
      pyStartsWith part "frame=" = false →
      pyStartsWith part "fps=" = false →
      pyStartsWith part "bitrate=" = false →
      pyStartsWith part "size=" = true →
      procPart u part = Except.ok { u with size := some (eqField1 part) }) ∧
    ((parse_ffmpeg_output "t" running_state ex_line).stats.frames_processed
        = 120 ∧
      (parse_ffmpeg_output "t" running_state ex_line).stats.fps = 30.2 ∧
      (parse_ffmpeg_output "t" running_state ex_line).stats.bitrate = 2500.0 ∧
      (parse_ffmpeg_output "t" running_state ex_line).stats.size
        = SizeVal.str "10MB" ∧
      (parse_ffmpeg_output "t" running_state ex_line).stats_queue
        = [(parse_ffmpeg_output "t" running_state ex_line).stats]) := by
  refine ⟨?_, ?_, ?_, ?_, ?_, ?_, by decide, ?_, ?_, by decide, by decide⟩
  · intro ts st line hm; simp [parse_ffmpeg_output, hm]
  · intro u part n h1 h2; simp [procPart, h1, h2]
  · intro u part q h0 h1 h2; simp [procPart, h0, h1, h2]
  · intro u part q h0 h1 h2 h3 h4; simp [procPart, h0, h1, h2, h3, h4]
  · intro u part h0 h1 h2 h3; simp [procPart, h0, h1, h2, h3]
  · intro u part h0 h1 h2 h3; simp [procPart, h0, h1, h2, h3]
  · have h : (parse_ffmpeg_output "t" running_state ex_line).stats.fps
        = mkRat 302 10 := by decide
    rw [h]; norm_num
  · have h : (parse_ffmpeg_output "t" running_state ex_line).stats.bitrate
        = mkRat 25000 10 := by decide
    rw [h]; norm_num

/-- Witness for C6's amended theorem: a line missing the tokens leaves
the state untouched. -/
theorem metrics_parsing_rules_witness :
    parse_ffmpeg_output "x" init_state "hello" = init_state :=
  metrics_parsing_rules.1 "x" init_state "hello" (by decide)
